import Mathlib

/-!
Shallow embedding of the conversation core of the chat-agent backend
(src/backend/main.py, src/backend/models.py).

The Firestore document store is modelled as an explicit `Store` value:
a list of projects, an append-only list of messages tagged with their
project id, and a list of files.  Messages are kept in insertion order;
the source orders message reads with `order_by("timestamp")`, and the
timestamps handed out by `datetime.utcnow()` are non-decreasing in
insertion order within a process with ties broken by insertion, so the
insertion-order list is exactly the oldest-first log the code reads.

Fallible handlers return `Except HTTPError` (FastAPI `HTTPException`
is modelled by `HTTPError`, carrying status code and detail string).
The external LLM call is modelled by an oracle `LLMOutcome` describing
what the network produced; `call_openrouter_llm` maps that outcome
through the same try/except structure as the Python code, including
the fact that Python `except Exception` also catches `HTTPException`.
-/

/-- A stored chat message document: role, content, timestamp
(timestamps are modelled as naturals). -/
structure Message where
  role : String
  content : String
  timestamp : Nat
deriving Repr, DecidableEq

/-- A role/content pair as sent to the completion endpoint. -/
structure CtxMsg where
  role : String
  content : String
deriving Repr, DecidableEq

/-- A project document.  `systemPrompt` is optional because the code
reads it with `project_data.get("systemPrompt", "")`, defaulting to the
empty string when the field is absent.  `createdAt` is kept in its
serialized ISO-8601 string form (the form `list_projects` sorts on). -/
structure Project where
  userId : String
  name : String
  systemPrompt : Option String
  createdAt : String
deriving Repr, DecidableEq

/-- A file document as written by `upload_file`. -/
structure FileDoc where
  projectId : String
  userId : String
  filename : String
  contentType : String
  size : Nat
  contentBase64 : String
  uploadedAt : Nat
deriving Repr, DecidableEq

/-- The document store: keyed projects, the message log in insertion
order tagged with project ids, and keyed files. -/
structure Store where
  projects : List (String × Project)
  messages : List (String × Message)
  files : List (String × FileDoc)
deriving Repr, DecidableEq

/-- FastAPI HTTPException: status code and detail. -/
structure HTTPError where
  status : Nat
  detail : String
deriving Repr, DecidableEq

/-- Fetch a project document by id (`db.collection("projects").document(pid).get()`). -/
def lookupProject (st : Store) (pid : String) : Option Project :=
  (st.projects.find? (fun e => e.1 == pid)).map Prod.snd

/-- Fetch a file document by id (`db.collection("files").document(fid).get()`). -/
def lookupFile (st : Store) (fid : String) : Option FileDoc :=
  (st.files.find? (fun e => e.1 == fid)).map Prod.snd

/-- The full ordered message log of one project, oldest first:
`collection("messages").order_by("timestamp")` with the whole stream read. -/
def msgsOf (st : Store) (pid : String) : List Message :=
  (st.messages.filter (fun e => e.1 == pid)).map Prod.snd

/-- Append one message document to the sub-log of a project
(`collection("messages").add({...})`). -/
def appendMsg (st : Store) (pid : String) (m : Message) : Store :=
  { st with messages := st.messages ++ [(pid, m)] }

/-- The bounded history read performed by the chat handler:
`collection("messages").order_by("timestamp").limit(20)`.  Firestore
`limit` keeps the FIRST 20 documents of the ascending-by-timestamp
stream, i.e. the oldest 20. -/
def chatTail (st : Store) (pid : String) : List Message :=
  (msgsOf st pid).take 20

/-- Context assembly of the chat handler: the system message built from
the project systemPrompt (defaulting to the empty string), then each
history entry mapped to its role/content pair in order, then the new
user message. -/
def buildContext (systemPrompt : Option String) (tail : List Message)
    (userText : String) : List CtxMsg :=
  ⟨"system", systemPrompt.getD ""⟩ ::
    (tail.map (fun m => ⟨m.role, m.content⟩) ++ [⟨"user", userText⟩])

/-- What the network produced for the completion request.
`response status text content` is an HTTP response with the given
status code and body text, where `content` is `some c` when
`json()["choices"][0]["message"]["content"]` extracts to `c` and `none`
when that extraction raises.  `timeout` is `httpx.TimeoutException`;
`transportFailure d` is any other exception raised by the transport,
with `d` its string rendering. -/
inductive LLMOutcome where
  | response (status : Nat) (text : String) (content : Option String)
  | timeout
  | transportFailure (desc : String)
deriving Repr, DecidableEq

/-- Python exceptions that can escape the `try` body of
`call_openrouter_llm`.  `httpExc` is a raised `HTTPException` (which in
Python is a subclass of `Exception`). -/
inductive PyExc where
  | httpExc (e : HTTPError)
  | timeoutExc
  | otherExc (msg : String)
deriving Repr, DecidableEq

/-- The Python `str(e)` rendering used in the `except Exception` clause:
starlette `HTTPException.__str__` is `f"{status_code}: {detail}"`. -/
def strOfPyExc : PyExc → String
  | .httpExc e => toString e.status ++ ": " ++ e.detail
  | .timeoutExc => "timeout"
  | .otherExc msg => msg

/-- The `try` body of `call_openrouter_llm`: post the request; on a
non-200 status raise `HTTPException(response.status_code,
f"LLM API error: {response.text}")`; otherwise extract the first choice
content, any extraction failure raising an ordinary exception. -/
def llmBody (o : LLMOutcome) : Except PyExc String :=
  match o with
  | .timeout => .error .timeoutExc
  | .transportFailure d => .error (.otherExc d)
  | .response s text content? =>
    if s ≠ 200 then
      .error (.httpExc ⟨s, "LLM API error: " ++ text⟩)
    else
      match content? with
      | some c => .ok c
      | none => .error (.otherExc "KeyError: choices")

/-- Model of `call_openrouter_llm`: the `try` body followed by the two
`except` clauses.  `except httpx.TimeoutException` maps the timeout to
`HTTPException(504, "LLM request timeout")`; the following
`except Exception as e` catches EVERY other exception — including the
`HTTPException` raised inside the body for a non-200 upstream status —
and re-raises `HTTPException(500, f"LLM error: {str(e)}")`.  The
`_messages` argument is the request payload; the response is determined
by the network oracle `o`. -/
def call_openrouter_llm (_messages : List CtxMsg) (o : LLMOutcome) :
    Except HTTPError String :=
  match llmBody o with
  | .ok c => .ok c
  | .error .timeoutExc => .error ⟨504, "LLM request timeout"⟩
  | .error e => .error ⟨500, "LLM error: " ++ strOfPyExc e⟩

/-- Result of one chat request: the store after the request, whether
the completion client was invoked, and the HTTP outcome (the assistant
text on success). -/
structure ChatResult where
  store : Store
  llmCalled : Bool
  outcome : Except HTTPError String
deriving Repr

/-- Model of the `chat` handler (`POST /api/chat/{project_id}`):
1. fetch the project, 404 when absent, 403 when not owned by the caller;
2. read the bounded history `chatTail`;
3. assemble the context via `buildContext` and append the user turn;
4. invoke the completion client; any failure aborts with its error;
5. on success append the user message then the assistant message.
`t1` and `t2` are the `datetime.utcnow()` values taken at the two
writes. -/
def chat (st : Store) (project_id : String) (chat_msg : String)
    (user_id : String) (o : LLMOutcome) (t1 t2 : Nat) : ChatResult :=
  match lookupProject st project_id with
  | none => ⟨st, false, .error ⟨404, "Project not found"⟩⟩
  | some project_data =>
    if project_data.userId ≠ user_id then
      ⟨st, false, .error ⟨403, "Unauthorized access"⟩⟩
    else
      let messages := buildContext project_data.systemPrompt
        (chatTail st project_id) chat_msg
      match call_openrouter_llm messages o with
      | .error e => ⟨st, true, .error e⟩
      | .ok assistant_response =>
        let st1 := appendMsg st project_id ⟨"user", chat_msg, t1⟩
        let st2 := appendMsg st1 project_id ⟨"assistant", assistant_response, t2⟩
        ⟨st2, true, .ok assistant_response⟩

/-- Model of `delete_project` (`DELETE /api/projects/{project_id}`):
404 when absent, 403 when not owned, otherwise delete every message of
the sub-log and then the project document. -/
def delete_project (st : Store) (project_id : String) (user_id : String) :
    Except HTTPError Store :=
  match lookupProject st project_id with
  | none => .error ⟨404, "Project not found"⟩
  | some p =>
    if p.userId ≠ user_id then .error ⟨403, "Unauthorized access"⟩
    else .ok
      { st with
        messages := st.messages.filter (fun e => !(e.1 == project_id)),
        projects := st.projects.filter (fun e => !(e.1 == project_id)) }

/-- One row of the `list_projects` response. -/
structure ProjectOut where
  id : String
  name : String
  systemPrompt : Option String
  createdAt : String
  userId : String
deriving Repr, DecidableEq

/-- The serialization of one owned project row performed inside the
`list_projects` loop. -/
def serializeProjectRow (e : String × Project) : ProjectOut :=
  ⟨e.1, e.2.name, e.2.systemPrompt, e.2.createdAt, e.2.userId⟩

/-- The comparison used by the Python `result.sort(key=lambda x:
x.get("createdAt", ""), reverse=True)`: row `a` may precede row `b`
when the serialized timestamp string of `b` is lexicographically at
most that of `a` (Python compares strings by code point, as does the
`String` linear order used here). -/
def createdAtDesc (a b : ProjectOut) : Bool :=
  decide (b.createdAt ≤ a.createdAt)

/-- Model of `list_projects` (`GET /api/projects`): stream the caller
owned projects, serialize each row, then
`result.sort(key=lambda x: x.get("createdAt", ""), reverse=True)` —
a stable sort on the serialized `createdAt` strings, descending. -/
def list_projects (st : Store) (user_id : String) : List ProjectOut :=
  ((st.projects.filter (fun e => e.2.userId == user_id)).map
      serializeProjectRow).mergeSort createdAtDesc

/-- The maximum upload size of `upload_file`: 10 MiB. -/
def MAX_FILE_SIZE : Nat := 10 * 1024 * 1024

/-- The base64 alphabet used by `base64.b64encode`. -/
def b64Alphabet : List Char :=
  "ABCDEFGHIJKLMNOPQRSTUVWXYZabcdefghijklmnopqrstuvwxyz0123456789+/".toList

/-- Index into the base64 alphabet. -/
def b64Char (n : Nat) : Char :=
  b64Alphabet.getD n '='

/-- Standard base64 of a byte list, as `base64.b64encode` produces:
groups of three bytes become four alphabet characters, with `=`
padding for a trailing group of one or two bytes. -/
def b64Encode : List Nat → List Char
  | [] => []
  | [a] => [b64Char (a / 4), b64Char (a % 4 * 16), '=', '=']
  | [a, b] => [b64Char (a / 4), b64Char (a % 4 * 16 + b / 16),
      b64Char (b % 16 * 4), '=']
  | a :: b :: c :: rest =>
    b64Char (a / 4) :: b64Char (a % 4 * 16 + b / 16) ::
      b64Char (b % 16 * 4 + c / 64) :: b64Char (c % 64) :: b64Encode rest

/-- Model of `upload_file` (`POST /api/projects/{project_id}/files`):
404 when the project is absent, 403 when not owned; reject with 400
when the byte size strictly exceeds `MAX_FILE_SIZE`; otherwise store
the new file document (base64 content) under the fresh id
`new_file_id` and return that id.  `t` is the upload timestamp. -/
def upload_file (st : Store) (project_id : String) (content : List Nat)
    (filename : String) (content_type : String) (user_id : String)
    (new_file_id : String) (t : Nat) : Store × Except HTTPError String :=
  match lookupProject st project_id with
  | none => (st, .error ⟨404, "Project not found"⟩)
  | some p =>
    if p.userId ≠ user_id then (st, .error ⟨403, "Access denied"⟩)
    else
      let file_size := content.length
      if file_size > MAX_FILE_SIZE then
        (st, .error ⟨400, "File too large. Maximum size: 10.0MB"⟩)
      else
        let doc : FileDoc :=
          ⟨project_id, user_id, filename, content_type, file_size,
            String.mk (b64Encode content), t⟩
        ({ st with files := st.files ++ [(new_file_id, doc)] },
          .ok new_file_id)

/-- Model of `delete_file` (`DELETE /api/projects/{project_id}/files/{file_id}`):
404 when the project is absent, 403 when the PROJECT is not owned by
the caller, 404 when the file is absent, 400 when the stored projectId
of the file differs from the addressed project; otherwise delete the
file document.  The userId field stored on the file document is never
consulted. -/
def delete_file (st : Store) (project_id : String) (file_id : String)
    (user_id : String) : Store × Except HTTPError String :=
  match lookupProject st project_id with
  | none => (st, .error ⟨404, "Project not found"⟩)
  | some p =>
    if p.userId ≠ user_id then (st, .error ⟨403, "Access denied"⟩)
    else
      match lookupFile st file_id with
      | none => (st, .error ⟨404, "File not found"⟩)
      | some f =>
        if f.projectId ≠ project_id then
          (st, .error ⟨400, "File does not belong to project"⟩)
        else
          ({ st with files := st.files.filter (fun e => !(e.1 == file_id)) },
            .ok file_id)

/-! Concrete fixtures used by counterexample and witness theorems. -/

/-- A project owned by alice with a set system prompt. -/
def projA : Project :=
  ⟨"alice", "demo", some "You are helpful", "2024-01-01T00:00:00"⟩

/-- Twenty-one messages of the project log of "p", with pairwise
distinct contents "0", "1", ..., "20", in timestamp order. -/
def msgs21 : List (String × Message) :=
  (List.range 21).map (fun i => ("p", ⟨"user", toString i, i⟩))

/-- A store holding the project "p" of alice together with a 21-entry
message log. -/
def st21 : Store :=
  ⟨[("p", projA)], msgs21, []⟩

/-- A small store: the project "p" of alice with a one-message log. -/
def stW : Store :=
  ⟨[("p", projA)], [("p", ⟨"user", "hi", 0⟩)], []⟩

/-- Appending a message to a project extends that project log on the
right. -/
theorem msgsOf_appendMsg_same (st : Store) (pid : String) (m : Message) :
    msgsOf (appendMsg st pid m) pid = msgsOf st pid ++ [m] := by
  simp [msgsOf, appendMsg]

/-- C1: the claim states that the history tail used by the chat
operation is, read oldest-first, a suffix of the full log — the 20 most
recent messages when the log is longer.  The code reads the tail with
`order_by("timestamp").limit(20)`, which keeps the FIRST (oldest) 20
documents of the ascending stream.  On a 21-message log the tail has
length 20 and equals the first 20 messages, and it is NOT a suffix of
the full log, refuting the most-recent-20 part of the claim while its
never-more-than-20 part holds. -/
theorem chatTail_oldest_not_most_recent :
    (chatTail st21 "p").length ≤ 20 ∧
    chatTail st21 "p" = (msgsOf st21 "p").take 20 ∧
    ¬ List.IsSuffix (chatTail st21 "p") (msgsOf st21 "p") := by
  decide

/-- C2: when the project exists, is owned by the caller, and the
completion client fails with error `e`, the chat request aborts with
exactly that error and the store — in particular the project message
log — is unchanged: neither the user message nor an assistant message
is persisted. -/
theorem chat_completion_failure_no_persist
    (st : Store) (pid text uid : String) (o : LLMOutcome) (t1 t2 : Nat)
    (p : Project) (e : HTTPError)
    (hp : lookupProject st pid = some p) (hown : p.userId = uid)
    (hfail : call_openrouter_llm
      (buildContext p.systemPrompt (chatTail st pid) text) o = .error e) :
    chat st pid text uid o t1 t2 = ⟨st, true, .error e⟩ := by
  unfold chat
  rw [hp]
  simp [hown, hfail]

/-- C2 witness: a concrete timeout on a seeded one-message project
leaves the store untouched and surfaces the 504 error. -/
theorem chat_completion_failure_no_persist_witness :
    chat stW "p" "hello" "alice" .timeout 5 6 =
      ⟨stW, true, .error ⟨504, "LLM request timeout"⟩⟩ :=
  chat_completion_failure_no_persist stW "p" "hello" "alice" .timeout 5 6
    projA ⟨504, "LLM request timeout"⟩ rfl rfl rfl

/-- C3: the assembled context has length `tail.length + 2`; its first
element is the system message carrying the project system prompt
(empty string when unset); its last element is the user message
carrying the new text; and the middle is exactly the tail entries,
role and content preserved, in their given order. -/
theorem buildContext_shape (sp : Option String) (tail : List Message)
    (text : String) :
    (buildContext sp tail text).length = tail.length + 2 ∧
    (buildContext sp tail text).head? = some ⟨"system", sp.getD ""⟩ ∧
    (buildContext sp tail text).getLast? = some ⟨"user", text⟩ ∧
    ((buildContext sp tail text).drop 1).take tail.length =
      tail.map (fun m => ⟨m.role, m.content⟩) := by
  refine ⟨?_, rfl, ?_, ?_⟩
  · simp [buildContext]
  · unfold buildContext
    rw [← List.cons_append, List.getLast?_concat]
  · simp only [buildContext, List.drop_succ_cons, List.drop_zero]
    exact List.take_left' (by simp)

/-- C4: the claim states that an upstream non-2xx response is
surfaced with its own status code and body.  In the code the
`HTTPException(response.status_code, ...)` raised inside the `try`
body is caught by the following `except Exception` clause — Python
`HTTPException` is an `Exception` subclass — and replaced by a 500.
At a concrete upstream 503 the client therefore reports 500, refuting
the passthrough part of the claim; the 504-on-timeout and
500-otherwise parts hold. -/
theorem call_openrouter_llm_swallows_upstream_status :
    call_openrouter_llm [] (.response 503 "overloaded" none) =
      .error ⟨500, "LLM error: 503: LLM API error: overloaded"⟩ ∧
    call_openrouter_llm [] .timeout =
      .error ⟨504, "LLM request timeout"⟩ ∧
    call_openrouter_llm [] (.transportFailure "connection refused") =
      .error ⟨500, "LLM error: connection refused"⟩ :=
  ⟨rfl, rfl, rfl⟩

/-- C5: a chat request on an existing project issued by a caller other
than the owner fails with 403 Forbidden, makes no completion call, and
leaves the store unchanged. -/
theorem chat_forbidden_no_mutation
    (st : Store) (pid text v : String) (o : LLMOutcome) (t1 t2 : Nat)
    (p : Project)
    (hp : lookupProject st pid = some p) (hne : p.userId ≠ v) :
    chat st pid text v o t1 t2 =
      ⟨st, false, .error ⟨403, "Unauthorized access"⟩⟩ := by
  unfold chat
  rw [hp]
  simp [hne]

/-- C5 witness: bob chatting on the project of alice is rejected with
403 and no mutation, whatever the network would have answered. -/
theorem chat_forbidden_no_mutation_witness :
    chat stW "p" "hello" "bob" (.response 200 "" (some "hi")) 5 6 =
      ⟨stW, false, .error ⟨403, "Unauthorized access"⟩⟩ :=
  chat_forbidden_no_mutation stW "p" "hello" "bob"
    (.response 200 "" (some "hi")) 5 6 projA rfl (by decide)

/-- C6: a successful chat request returns the assistant text and
appends exactly two messages to the project log, the user message
first and the assistant message second, both readable back from the
full log with identical role and content and positioned after every
previously stored message of the project. -/
theorem chat_success_appends_two
    (st : Store) (pid text uid : String) (o : LLMOutcome) (t1 t2 : Nat)
    (p : Project) (a : String)
    (hp : lookupProject st pid = some p) (hown : p.userId = uid)
    (hok : call_openrouter_llm
      (buildContext p.systemPrompt (chatTail st pid) text) o = .ok a) :
    (chat st pid text uid o t1 t2).outcome = .ok a ∧
    msgsOf (chat st pid text uid o t1 t2).store pid =
      msgsOf st pid ++ [⟨"user", text, t1⟩, ⟨"assistant", a, t2⟩] := by
  unfold chat
  rw [hp]
  simp [hown, hok, msgsOf_appendMsg_same]

/-- C6 witness: on the seeded one-message project, a successful
completion "hello" appends the user turn then the assistant turn after
the existing message. -/
theorem chat_success_appends_two_witness :
    (chat stW "p" "hi again" "alice" (.response 200 "" (some "hello")) 5 6).outcome
        = .ok "hello" ∧
    msgsOf (chat stW "p" "hi again" "alice"
        (.response 200 "" (some "hello")) 5 6).store "p" =
      msgsOf stW "p" ++ [⟨"user", "hi again", 5⟩, ⟨"assistant", "hello", 6⟩] :=
  chat_success_appends_two stW "p" "hi again" "alice"
    (.response 200 "" (some "hello")) 5 6 projA "hello" rfl rfl rfl

/-- C7: deleting an owned project succeeds, removes the project record
and every message of its sub-log (no orphaned messages: the log reads
back empty), and the project id no longer appears in the project
listing of the caller. -/
theorem delete_project_cascades
    (st : Store) (pid uid : String) (p : Project)
    (hp : lookupProject st pid = some p) (hown : p.userId = uid) :
    ∃ st2, delete_project st pid uid = .ok st2 ∧
      lookupProject st2 pid = none ∧
      msgsOf st2 pid = [] ∧
      ∀ q ∈ list_projects st2 uid, q.id ≠ pid := by
  refine ⟨{ st with
      messages := st.messages.filter (fun e => !(e.1 == pid)),
      projects := st.projects.filter (fun e => !(e.1 == pid)) }, ?_, ?_, ?_, ?_⟩
  · unfold delete_project
    rw [hp]
    simp [hown]
  · simp only [lookupProject, Option.map_eq_none', List.find?_eq_none]
    intro x hx
    have h2 := (List.mem_filter.mp hx).2
    simp only [Bool.not_eq_true'] at h2
    simp [h2]
  · simp only [msgsOf, List.map_eq_nil_iff, List.filter_eq_nil_iff]
    intro x hx
    have h2 := (List.mem_filter.mp hx).2
    simp only [Bool.not_eq_true'] at h2
    simp [h2]
  · intro q hq
    unfold list_projects at hq
    rw [List.mem_mergeSort] at hq
    obtain ⟨e, he, rfl⟩ := List.mem_map.mp hq
    have h1 := (List.mem_filter.mp (List.mem_filter.mp he).1).2
    simp only [Bool.not_eq_true'] at h1
    simpa [serializeProjectRow] using h1

/-- C7 witness: alice deleting the seeded project "p" removes it and
its one-message log and it vanishes from her listing. -/
theorem delete_project_cascades_witness :
    ∃ st2, delete_project stW "p" "alice" = .ok st2 ∧
      lookupProject st2 "p" = none ∧
      msgsOf st2 "p" = [] ∧
      ∀ q ∈ list_projects st2 "alice", q.id ≠ "p" :=
  delete_project_cascades stW "p" "alice" projA rfl rfl

/-- C8: on an owned project, an upload whose byte size strictly
exceeds 10 MiB is rejected with a 400 validation error and the store
is unchanged (no File record created), while an upload of exactly
10 MiB succeeds and creates the File record. -/
theorem upload_file_size_boundary
    (st : Store) (pid fname ctype uid fid : String) (content : List Nat)
    (t : Nat) (p : Project)
    (hp : lookupProject st pid = some p) (hown : p.userId = uid) :
    (content.length > MAX_FILE_SIZE →
      upload_file st pid content fname ctype uid fid t =
        (st, .error ⟨400, "File too large. Maximum size: 10.0MB"⟩)) ∧
    (content.length = MAX_FILE_SIZE →
      upload_file st pid content fname ctype uid fid t =
        ({ st with files := st.files ++
            [(fid, ⟨pid, uid, fname, ctype, content.length,
              String.mk (b64Encode content), t⟩)] }, .ok fid)) := by
  unfold upload_file
  rw [hp]
  constructor
  · intro h
    simp [hown, h]
  · intro h
    have h2 : ¬ content.length > MAX_FILE_SIZE := by omega
    simp [hown, h2]

/-- C8 witness: on the seeded project, a 10 MiB + 1 byte upload is
rejected leaving the store unchanged, and an exactly 10 MiB upload
succeeds and appends the File record. -/
theorem upload_file_size_boundary_witness :
    upload_file stW "p" (List.replicate (MAX_FILE_SIZE + 1) 0)
        "big.bin" "application/octet-stream" "alice" "f1" 7 =
      (stW, .error ⟨400, "File too large. Maximum size: 10.0MB"⟩) ∧
    upload_file stW "p" (List.replicate MAX_FILE_SIZE 0)
        "exact.bin" "application/octet-stream" "alice" "f2" 8 =
      ({ stW with files := stW.files ++
          [("f2", ⟨"p", "alice", "exact.bin", "application/octet-stream",
            (List.replicate MAX_FILE_SIZE (0 : Nat)).length,
            String.mk (b64Encode (List.replicate MAX_FILE_SIZE 0)), 8⟩)] },
        .ok "f2") :=
  ⟨(upload_file_size_boundary stW "p" "big.bin" "application/octet-stream"
      "alice" "f1" (List.replicate (MAX_FILE_SIZE + 1) 0) 7 projA rfl rfl).1
      (by simp),
    (upload_file_size_boundary stW "p" "exact.bin" "application/octet-stream"
      "alice" "f2" (List.replicate MAX_FILE_SIZE 0) 8 projA rfl rfl).2
      (by simp)⟩

/-- Transitivity of the descending comparison on serialized creation
timestamps. -/
theorem createdAtDesc_trans (a b c : ProjectOut) :
    createdAtDesc a b → createdAtDesc b c → createdAtDesc a c := by
  unfold createdAtDesc
  simp only [decide_eq_true_eq]
  exact fun h1 h2 => le_trans h2 h1

/-- Totality of the descending comparison on serialized creation
timestamps. -/
theorem createdAtDesc_total (a b : ProjectOut) :
    createdAtDesc a b || createdAtDesc b a := by
  unfold createdAtDesc
  simp only [Bool.or_eq_true, decide_eq_true_eq]
  exact le_total b.createdAt a.createdAt

/-- C9: the project listing is a permutation of the serialized rows of
exactly the caller-owned projects, every returned row carries the
caller id, and consecutive rows are ordered by descending lexicographic
comparison of their serialized creation-timestamp strings (the `String`
order is lexicographic by code point, as in Python). -/
theorem list_projects_sorted_desc (st : Store) (uid : String) :
    List.Pairwise (fun a b : ProjectOut => b.createdAt ≤ a.createdAt)
      (list_projects st uid) ∧
    List.Perm (list_projects st uid)
      ((st.projects.filter (fun e => e.2.userId == uid)).map
        serializeProjectRow) ∧
    ∀ q ∈ list_projects st uid, q.userId = uid := by
  refine ⟨?_, ?_, ?_⟩
  · have h := List.sorted_mergeSort createdAtDesc_trans createdAtDesc_total
      ((st.projects.filter (fun e => e.2.userId == uid)).map
        serializeProjectRow)
    exact h.imp (fun hab => of_decide_eq_true hab)
  · unfold list_projects
    exact List.mergeSort_perm _ _
  · intro q hq
    unfold list_projects at hq
    rw [List.mem_mergeSort] at hq
    obtain ⟨e, he, rfl⟩ := List.mem_map.mp hq
    have h1 := (List.mem_filter.mp he).2
    simpa [serializeProjectRow] using h1

/-- C10: when the caller owns the addressed project, the file exists,
and the stored projectId of the file equals the addressed project id,
`delete_file` deletes the file and succeeds — the userId stored on the
file document is never compared against the caller, so the result
holds for every value of that field. -/
theorem delete_file_ignores_stored_file_owner
    (st : Store) (pid fid uid : String) (p : Project) (f : FileDoc)
    (hp : lookupProject st pid = some p) (hown : p.userId = uid)
    (hf : lookupFile st fid = some f) (hfp : f.projectId = pid) :
    delete_file st pid fid uid =
      ({ st with files := st.files.filter (fun e => !(e.1 == fid)) },
        .ok fid) := by
  unfold delete_file
  rw [hp]
  simp [hown, hf, hfp]

/-- C10 witness: the stored file belongs to project "p" of alice but
carries the unrelated userId "mallory"; deletion by alice still
succeeds. -/
theorem delete_file_ignores_stored_file_owner_witness :
    delete_file
        ⟨[("p", projA)], [],
          [("f1", ⟨"p", "mallory", "a.txt", "text/plain", 1, "AA==", 3⟩)]⟩
        "p" "f1" "alice" =
      (⟨[("p", projA)], [], []⟩, .ok "f1") :=
  delete_file_ignores_stored_file_owner
    ⟨[("p", projA)], [],
      [("f1", ⟨"p", "mallory", "a.txt", "text/plain", 1, "AA==", 3⟩)]⟩
    "p" "f1" "alice" projA
    ⟨"p", "mallory", "a.txt", "text/plain", 1, "AA==", 3⟩ rfl rfl rfl rfl
